import Mathlib

/-! Verification of PyModelarDB (pymodelardb/connection.py, cursors.py,
types.py) against its natural-language specification.

The Python modules are shallowly embedded: classes become structures, methods
become functions from the structure to an `Except PyError` result (raising an
exception is returning `.error e`; methods that mutate the object return the
new structure), and the JSON values produced by json.loads become the
inductive `JValue`. Network transports (urllib, telnetlib, pyarrow flight)
are not code of this repository: the response a transport delivers is a
parameter of the execute functions, and json.loads is passed in as an oracle
`loads : String -> Option JValue` (none = json.decoder.JSONDecodeError).
Python builtin string operations used by the source (str.find, str.rfind,
slicing, str.strip, str.split, str.upper, int()) are modelled by the py*
functions below, each mirroring the CPython semantics the source relies on. -/

namespace PyModelarDB

/-- Values produced by json.loads. Numbers are kept as rationals (the client
never computes with them); object fields keep document order, which is the
iteration order of the CPython dict json.loads builds (keys are assumed
distinct, as in every document the server convention produces). -/
inductive JValue : Type where
  | null : JValue
  | bool : Bool → JValue
  | num : Rat → JValue
  | str : String → JValue
  | arr : List JValue → JValue
  | obj : List (String × JValue) → JValue

/-- The enumeration pymodelardb.types.TypeOf. -/
inductive TypeOf : Type where
  | STRING
  | BINARY
  | NUMBER
  | DATETIME
  | ROWID
deriving DecidableEq, Repr

/-- The enumeration pymodelardb.types.Interface. -/
inductive Interface : Type where
  | ARROW
  | SOCKET
  | HTTP
deriving DecidableEq, Repr

/-- The exception kinds the embedded code can raise. ProgrammingError and
NotSupportedError are the package exceptions from pymodelardb.types; the
others are Python builtin exceptions the source can let escape. -/
inductive PyError : Type where
  | programmingError : String → PyError
  | notSupportedError : String → PyError
  | typeError : String → PyError
  | keyError : String → PyError
  | attributeError : String → PyError
  | jsonDecodeError : PyError
deriving DecidableEq, Repr

/-- One entry of Cursor.description, the 7-tuple
(name, type_code, None, None, None, None, False) built at cursors.py:145. -/
structure ColumnDesc : Type where
  name : String
  type_code : TypeOf
  display_size : Option Nat
  internal_size : Option Nat
  precision : Option Nat
  scale : Option Nat
  null_ok : Bool

/-- Shorthand for the only shape of descriptor tuple the source ever builds. -/
def mkCol (name : String) (t : TypeOf) : ColumnDesc :=
  ColumnDesc.mk name t none none none none false

/-! ## Python builtin string operations -/

/-- Python str.strip with no argument: drop whitespace from both ends. -/
def pyStrip (s : String) : String :=
  ⟨((s.data.dropWhile Char.isWhitespace).reverse.dropWhile Char.isWhitespace).reverse⟩

/-- Index of the first occurrence of a character, as str.find computes it
(the helper returns the index within the character list). -/
def pyFindAux (c : Char) : List Char → Option Nat
  | [] => none
  | a :: rest => if a = c then some 0 else (pyFindAux c rest).map (· + 1)

/-- Python str.find for a single character: first index, or -1 when absent. -/
def pyFind (s : String) (c : Char) : Int :=
  match pyFindAux c s.data with
  | some n => (n : Int)
  | none => -1

/-- Python str.rfind for a single character: last index, or -1 when absent. -/
def pyRFind (s : String) (c : Char) : Int :=
  match pyFindAux c s.data.reverse with
  | some n => (s.data.length : Int) - 1 - (n : Int)
  | none => -1

/-- Resolution of one bound of a Python slice s[a:b]: negative indices count
from the end, then the bound is clamped into [0, len]. -/
def pySliceIdx (len : Nat) (i : Int) : Nat :=
  let j : Int := if i < 0 then i + (len : Int) else i
  if j < 0 then 0 else min j.toNat len

/-- Python string slicing s[a:b]. -/
def pySlice (s : String) (a b : Int) : String :=
  let l := s.data
  ⟨(l.take (pySliceIdx l.length b)).drop (pySliceIdx l.length a)⟩

/-- Fuel-driven worker for str.split with a non-empty separator s0 :: srest:
scan left to right, cut at each non-overlapping occurrence. The fuel is an
upper bound on the length of the list, so the fuel-exhausted branch is never
reached from pySplit. -/
def pySplitAux (s0 : Char) (srest : List Char) : Nat → List Char → List (List Char)
  | _, [] => [[]]
  | 0, l => [l]
  | fuel + 1, c :: rest =>
    if (s0 :: srest).isPrefixOf (c :: rest) then
      [] :: pySplitAux s0 srest fuel (rest.drop srest.length)
    else
      match pySplitAux s0 srest fuel rest with
      | [] => [[c]]
      | h :: t => (c :: h) :: t

/-- Python str.split(sep) for a non-empty separator. -/
def pySplit (s : String) (sep : String) : List String :=
  match sep.data with
  | [] => [s]
  | c :: cs => (pySplitAux c cs s.data.length s.data).map fun l => ⟨l⟩

/-- Value of a decimal digit list. -/
def digitsToNat (l : List Char) : Nat :=
  l.foldl (fun acc c => 10 * acc + (c.toNat - 48)) 0

/-- Python int(str): surrounding whitespace is ignored, an optional sign is
followed by at least one decimal digit; anything else raises ValueError
(modelled as none). Underscore digit grouping is not modelled; no claim
touches it. -/
def pyInt (s : String) : Option Int :=
  match (pyStrip s).data with
  | [] => none
  | '-' :: ds =>
    if ds ≠ [] ∧ ds.all Char.isDigit then some (-(digitsToNat ds : Int)) else none
  | '+' :: ds =>
    if ds ≠ [] ∧ ds.all Char.isDigit then some ((digitsToNat ds : Int)) else none
  | ds =>
    if ds.all Char.isDigit then some ((digitsToNat ds : Int)) else none

/-- Python str.upper on the ASCII range the interface names use. -/
def pyUpper (s : String) : String :=
  ⟨s.data.map Char.toUpper⟩

/-- Truthiness of an optional string argument, as the source tests it with
`if user or password or database` and `elif dsn`: None and the empty string
are falsy, every other string is truthy. -/
def pyTruthy : Option String → Bool
  | none => false
  | some s => s ≠ ""

/-- Python truthiness of a JSON-decoded value, used by the empty-result check
`not result_set[0]` at cursors.py:134. -/
def pyFalsy : JValue → Bool
  | .null => true
  | .bool b => !b
  | .num q => q = 0
  | .str s => s = ""
  | .arr l => l.isEmpty
  | .obj l => l.isEmpty

/-- Lookup in the CPython dict json.loads builds from an object: with the
fields in document order and a later duplicate key overwriting an earlier
one, the lookup finds the last binding. -/
def pyDictGet (fields : List (String × JValue)) (k : String) : Option JValue :=
  fields.reverse.lookup k

/-! ## The Cursor base class (cursors.py) -/

/-- One row tuple, as `tuple(result.values())` builds it. -/
abbrev Row : Type := List JValue

/-- One element of the lazy row iterator `self._result_set`: forcing the
element either yields a row tuple or raises the exception the mapped
function raised. -/
abbrev RSItem : Type := Except PyError Row

/-- State of a Cursor object. `connection` is whether `self._connection`
still references the owning Connection (close() sets it to None, and
_is_closed tests it); `result_set` is the remaining, not yet consumed part
of the row iterator (None before any successful execute). -/
structure Cursor : Type where
  connection : Bool
  description : Option (List ColumnDesc)
  rowcount : Int
  arraysize : Nat
  result_set : Option (List RSItem)

/-- State Cursor.__init__ leaves a new cursor in. -/
def initialCursor : Cursor :=
  Cursor.mk true none (-1) 1 none

/-- Argument passed as `parameters` to execute(): nothing, a mapping, or a
positional sequence (values rendered to the text the % operator would
produce for them). -/
inductive Params : Type where
  | noParams : Params
  | mapping : List (String × String) → Params
  | positional : List String → Params

/-- Identity test `parameters is dict` at cursors.py:113: it compares the
argument with the type object dict itself, not with isinstance, so it is
False for every value an execute() caller can pass. -/
def paramsIsDictType (_p : Params) : Bool := false

/-- Identity test `parameters is list or parameters is tuple` at
cursors.py:115: False for every actual argument, as above. -/
def paramsIsListOrTupleType (_p : Params) : Bool := false

/-- Cursor._before_execute (cursors.py:110-118). Both guards compare the
parameters against type objects and never hold; moreover the results of the
two `%` formatting expressions at lines 114 and 117 are discarded, not
assigned back to `operation`. The operation is therefore returned unchanged
(encoding to bytes is the identity in this model). -/
def before_execute (operation : String) (parameters : Params) : String :=
  if paramsIsDictType parameters then
    operation
  else if paramsIsListOrTupleType parameters then
    operation
  else
    operation

/-- Replacement of every non-overlapping occurrence of a non-empty pattern,
scanning left to right; the fuel is an upper bound on the text length. -/
def replaceAllAux (pat repl : List Char) : Nat → List Char → List Char
  | _, [] => []
  | 0, l => l
  | fuel + 1, c :: rest =>
    if pat.isPrefixOf (c :: rest) ∧ pat ≠ [] then
      repl ++ replaceAllAux pat repl fuel ((c :: rest).drop pat.length)
    else
      c :: replaceAllAux pat repl fuel rest

/-- Replacement of every occurrence of a pattern in a string. -/
def replaceAll (s pat repl : String) : String :=
  ⟨replaceAllAux pat.data repl.data s.data.length s.data⟩

/-- Modelled on the words of the specification for comparison with
before_execute: each %(name)s placeholder in the query text is replaced
by the value the mapping holds for that name, with no escaping or quoting.
This is what the source never does. -/
def percentSubstitute (s : String) (m : List (String × String)) : String :=
  m.foldl (fun acc kv => replaceAll acc ("%(" ++ kv.1 ++ ")s") kv.2) s

/-- Type inference at cursors.py:143:
`type_code = TypeOf.STRING if value is str else TypeOf.NUMBER`.
The guard compares the value with the type object str by identity; no
JSON-decoded value is that type object, so the inference yields NUMBER for
every value. -/
def typeOfValue (_v : JValue) : TypeOf := TypeOf.NUMBER

/-- Typing rule as the specification words it: STRING for a textual value,
NUMBER otherwise. Kept separate so theorems can compare it with what the
source computes. -/
def typeOfValueSpec : JValue → TypeOf
  | .str _ => TypeOf.STRING
  | _ => TypeOf.NUMBER

/-- Empty-result normalization at cursors.py:133-135: a result list holding
exactly one falsy element (the Spark engine encodes an empty result as
a single empty object) becomes the empty list. -/
def normalizeResult (rs : List JValue) : List JValue :=
  match rs with
  | [r] => if pyFalsy r then [] else [r]
  | _ => rs

/-- Forcing one element of `map(lambda result: tuple(result.values()), ...)`
(cursors.py:136-137): an object row yields its values in field order; any
other value has no .values() and the lambda raises AttributeError. -/
def forceRow : JValue → RSItem
  | .obj fs => .ok (fs.map Prod.snd)
  | _ => .error (.attributeError "values")

/-- Error text extraction for a response that does not parse as JSON
(cursors.py:126-130): the text strictly between the first left bracket and
the last right bracket, stripped. -/
def extract_server_error (result : String) : String :=
  let start_of_error := pyFind result '[' + 1
  let end_of_error := pyRFind result ']'
  pyStrip (pySlice result start_of_error end_of_error)

/-- Cursor._after_execute for the HTTP and socket variants
(cursors.py:120-147). `loads` is the json.loads oracle; `response` is the
decoded response text. Returns the new cursor state and the exception
raised, if any. The source assigns `self._result_set` (line 136) before the
description loop (lines 140-145) and assigns `self._description` and
`self._rowcount` only after the loop, which this function reproduces: a
first row without .items() raises after the row iterator is replaced.
A parsed value whose type makes `json.loads(result)['result']` or
`len(result_set)` raise is modelled as an immediate TypeError; the source
would raise type-dependent builtin exceptions on those paths, which no
claim and no server convention exercises. -/
def after_execute (loads : String → Option JValue) (st : Cursor)
    (response : String) : Cursor × Option PyError :=
  match loads response with
  | none =>
    (st, some (.programmingError
      ("unable to execute query due to:\n" ++ extract_server_error response)))
  | some (.obj fields) =>
    match pyDictGet fields "result" with
    | none => (st, some (.keyError "result"))
    | some (.arr rs) =>
      let result_set := normalizeResult rs
      let st1 : Cursor := { st with result_set := some (result_set.map forceRow) }
      match result_set with
      | [] => ({ st1 with description := some [], rowcount := 0 }, none)
      | .obj fs :: _ =>
        ({ st1 with
            description := some (fs.map fun nv => mkCol nv.1 (typeOfValue nv.2)),
            rowcount := (result_set.length : Int) }, none)
      | _ :: _ => (st1, some (.attributeError "items"))
    | some _ => (st, some (.typeError "result value is not a list"))
  | some _ => (st, some (.typeError "response value is not subscriptable"))

/-- Cursor.fetchone (cursors.py:79-86): after the closed and readiness
checks, `next(self._result_set)` is evaluated under a bare except that
turns any exception (an exhausted iterator as well as a row the mapped
lambda rejects) into the no-value sentinel None. -/
def fetchone (st : Cursor) : Except PyError (Option Row × Cursor) :=
  if st.connection = false then
    .error (.programmingError "cannot fetch a row as the cursor is closed")
  else
    match st.result_set with
    | none => .error (.programmingError "a result set is currently not available")
    | some [] => .ok (none, st)
    | some (item :: rest) =>
      let st1 : Cursor := { st with result_set := some rest }
      match item with
      | .ok row => .ok (some row, st1)
      | .error _ => .ok (none, st1)

/-- Draining up to n elements of the row iterator, as list(itertools.islice)
and list() do: an element whose forcing raises propagates the exception. -/
def takeRows : Nat → List RSItem → Except PyError (List Row × List RSItem)
  | 0, items => .ok ([], items)
  | _ + 1, [] => .ok ([], [])
  | n + 1, item :: rest =>
    match item with
    | .error e => .error e
    | .ok row =>
      match takeRows n rest with
      | .error e => .error e
      | .ok (rows, rem) => .ok (row :: rows, rem)

/-- Cursor.fetchmany (cursors.py:88-94). The guard `if not size` treats both
None and 0 as absent, falling back to self.arraysize. -/
def fetchmany (st : Cursor) (size : Option Nat) :
    Except PyError (List Row × Cursor) :=
  if st.connection = false then
    .error (.programmingError "cannot fetch multiple rows as the cursor is closed")
  else
    match st.result_set with
    | none => .error (.programmingError "a result set is currently not available")
    | some items =>
      let n := match size with
        | none => st.arraysize
        | some 0 => st.arraysize
        | some k => k
      match takeRows n items with
      | .error e => .error e
      | .ok (rows, rem) => .ok (rows, { st with result_set := some rem })

/-- Cursor.fetchall (cursors.py:96-100). -/
def fetchall (st : Cursor) : Except PyError (List Row × Cursor) :=
  if st.connection = false then
    .error (.programmingError "cannot fetch all rows as the cursor is closed")
  else
    match st.result_set with
    | none => .error (.programmingError "a result set is currently not available")
    | some items =>
      match takeRows items.length items with
      | .error e => .error e
      | .ok (rows, rem) => .ok (rows, { st with result_set := some rem })

/-- Property Cursor.description (cursors.py:56-61). -/
def getDescription (st : Cursor) : Except PyError (Option (List ColumnDesc)) :=
  if st.connection = false then
    .error (.programmingError "cannot return the description as the cursor is closed")
  else
    .ok st.description

/-- Property Cursor.rowcount (cursors.py:63-67). -/
def getRowcount (st : Cursor) : Except PyError Int :=
  if st.connection = false then
    .error (.programmingError "cannot return the row count as the cursor is closed")
  else
    .ok st.rowcount

/-- Cursor.close (cursors.py:69-72): guarded, then drops the connection
reference. SocketCursor.close (cursors.py:239-243) runs the same guard,
closes the telnet connection (outside this model) and then does the same. -/
def cursorClose (st : Cursor) : Except PyError Cursor :=
  if st.connection = false then
    .error (.programmingError "cannot close the cursor as it is already closed")
  else
    .ok { st with connection := false }

/-- Cursor.setinputsizes (cursors.py:102-104): only the closed check. -/
def setinputsizes (st : Cursor) (_sizes : Nat) : Except PyError Unit :=
  if st.connection = false then
    .error (.programmingError "cannot set the input size as the cursor is closed")
  else
    .ok ()

/-- Cursor.setoutputsizes (cursors.py:106-108): only the closed check. -/
def setoutputsizes (st : Cursor) (_size _column : Nat) : Except PyError Unit :=
  if st.connection = false then
    .error (.programmingError "cannot set the output size as the cursor is closed")
  else
    .ok ()

/-- HTTPCursor.execute (cursors.py:225-231): closed check, parameter step on
the stripped operation, one POST (the transport and the attribute lookup
self._connection._host it evaluates are outside this model; the body the
server answers with is the `response` parameter), then the shared parse. -/
def HTTPCursor.execute (loads : String → Option JValue) (st : Cursor)
    (operation : String) (parameters : Params) (response : String) :
    Cursor × Option PyError :=
  if st.connection = false then
    (st, some (.programmingError "cannot execute queries as the cursor is closed"))
  else
    let _message := before_execute (pyStrip operation) parameters
    after_execute loads st response

/-- SocketCursor.execute (cursors.py:245-255): as the HTTP variant but the
message is the stripped operation with a newline appended, and the response
is accumulated from the socket reads (the accumulation is outside this
model; `response` is the concatenated text). -/
def SocketCursor.execute (loads : String → Option JValue) (st : Cursor)
    (operation : String) (parameters : Params) (response : String) :
    Cursor × Option PyError :=
  if st.connection = false then
    (st, some (.programmingError "cannot execute queries as the cursor is closed"))
  else
    let _message := before_execute (pyStrip operation ++ "\n") parameters
    after_execute loads st response

/-! ## The ArrowCursor variant (cursors.py:160-218) -/

/-- Wire types of the Apache Arrow schema that the fixed table
ArrowCursor.__type_map (cursors.py:164-172) keys on. -/
inductive ArrowType : Type where
  | string
  | int32
  | timestamp_ms
  | timestamp_us_utc
  | float32
  | float64
  | binary
  | other : String → ArrowType
deriving DecidableEq, Repr

/-- The fixed dictionary ArrowCursor.__type_map: none models the KeyError a
wire type outside the table raises at cursors.py:201. -/
def type_map : ArrowType → Option TypeOf
  | .string => some TypeOf.STRING
  | .int32 => some TypeOf.NUMBER
  | .timestamp_ms => some TypeOf.DATETIME
  | .timestamp_us_utc => some TypeOf.DATETIME
  | .float32 => some TypeOf.NUMBER
  | .float64 => some TypeOf.NUMBER
  | .binary => some TypeOf.BINARY
  | .other _ => none

/-- Description loop of ArrowCursor._after_execute (cursors.py:197-203): one
descriptor per schema column, failing with KeyError on an unmapped type. -/
def buildArrowDescription : List (String × ArrowType) → Except PyError (List ColumnDesc)
  | [] => .ok []
  | (n, t) :: rest =>
    match type_map t with
    | none => .error (.keyError "unmapped arrow wire type")
    | some tc =>
      match buildArrowDescription rest with
      | .error e => .error e
      | .ok ds => .ok (mkCol n tc :: ds)

/-- Outcome of the flight do_get round trip as ArrowCursor.execute observes
it: the transport is unreachable (FlightUnavailableError), the server
reports a fault (an ArrowException whose args[0] text embeds a JSON object
with a grpc_message field), or a stream arrives carrying a schema and row
batches (the column-major to row-major flattening of
__wrap_with_generator is applied, so batches arrive as row lists). -/
inductive FlightOutcome : Type where
  | unavailable : FlightOutcome
  | fault : String → FlightOutcome
  | stream : List (String × ArrowType) → List (List Row) → FlightOutcome

/-- ArrowCursor._after_execute (cursors.py:194-207): the description loop
runs before any assignment, so an unmapped type leaves the cursor
untouched; on success the row iterator, description and the batch-stream
row count of -1 are installed. -/
def arrow_after_execute (st : Cursor) (schema : List (String × ArrowType))
    (batches : List (List Row)) : Cursor × Option PyError :=
  match buildArrowDescription schema with
  | .error e => (st, some e)
  | .ok ds =>
    ({ st with
        result_set := some ((batches.flatten).map Except.ok),
        description := some ds,
        rowcount := -1 }, none)

/-- ArrowCursor.execute (cursors.py:174-192). On FlightUnavailableError the
handler composes "unable to connect to: " plus self._connection._host; the
Connection of this source stores the host under the name-mangled attribute
_Connection__host, so that lookup itself raises AttributeError (the state
is not touched either way). On an ArrowException the handler slices the
text between the first left brace and one past the last right brace, parses
it with json.loads and re-raises the grpc_message as a ProgrammingError;
a slice that does not parse lets the JSONDecodeError escape. -/
def ArrowCursor.execute (loads : String → Option JValue) (st : Cursor)
    (operation : String) (parameters : Params) (outcome : FlightOutcome) :
    Cursor × Option PyError :=
  if st.connection = false then
    (st, some (.programmingError "cannot execute queries as the cursor is closed"))
  else
    let _message := before_execute (pyStrip operation) parameters
    match outcome with
    | .unavailable => (st, some (.attributeError "_host"))
    | .fault errText =>
      let sliced := pySlice errText (pyFind errText '{') (pyRFind errText '}' + 1)
      match loads sliced with
      | none => (st, some .jsonDecodeError)
      | some (.obj fs) =>
        match pyDictGet fs "grpc_message" with
        | some (.str m) =>
          (st, some (.programmingError ("unable to execute query due to: " ++ pyStrip m)))
        | some _ => (st, some (.attributeError "strip"))
        | none => (st, some (.keyError "grpc_message"))
      | some _ => (st, some (.typeError "error payload is not subscriptable"))
    | .stream schema batches => arrow_after_execute st schema batches

/-! ## The Connection class (connection.py) -/

/-- Modelled from the spec: connection.py imports DEFAULT_PORT_NUMBER from
pymodelardb.types, but the constant is missing from the types module of
this source tree. The connection docstring fixes the default to 9999
("defaults to 9999 if not specified"), which is also the port the socket
cursor and the test servers hard-code. -/
def DEFAULT_PORT_NUMBER : Int := 9999

/-- State of a Connection object. The host and port are stored by
Connection.__init__ under the name-mangled attributes _Connection__host and
_Connection__port (the double-underscore fields at connection.py:76-77),
so that lookups of a plain _host attribute on this object fail. -/
structure Connection : Type where
  host : String
  port : Int
  interface : Interface
  closed : Bool
deriving DecidableEq, Repr

/-- Lookup `Interface[interface.upper()]` (connection.py:70): none models
the KeyError an unknown name raises. -/
def interfaceOfString (s : String) : Option Interface :=
  if pyUpper s = "ARROW" then some Interface.ARROW
  else if pyUpper s = "SOCKET" then some Interface.SOCKET
  else if pyUpper s = "HTTP" then some Interface.HTTP
  else none

/-- Tail of Connection.__init__ shared by both input modes
(connection.py:69-90): resolve the interface name, then store host, port
and the cursor class matching the interface. -/
def resolveInterface (interfaceStr : String) (host : String) (port : Int) :
    Except PyError Connection :=
  match interfaceOfString interfaceStr with
  | none => .error (.programmingError "interface must be Arrow, HTTP, or socket")
  | some k => .ok (Connection.mk host port k false)

/-- Connection.__init__ (connection.py:45-90). Credentials are tested for
truthiness first; a truthy dsn is then split on "://" (unpacking into
exactly two parts, anything else raises ValueError, caught and re-raised as
the grammar ProgrammingError), the right part splits on ":" into the host
and an optional port whose int() failure is caught by the same handler;
otherwise truthy host and interface are required. -/
def connectionInit (dsn user password host database interface : Option String)
    (port : Int) : Except PyError Connection :=
  if pyTruthy user || pyTruthy password || pyTruthy database then
    .error (.notSupportedError "only dsn, host, interface, and port is supported")
  else if pyTruthy dsn then
    match pySplit (dsn.getD "") "://" with
    | [interfaceStr, hostAndMaybePort] =>
      match pySplit hostAndMaybePort ":" with
      | [h1] => resolveInterface interfaceStr h1 DEFAULT_PORT_NUMBER
      | h1 :: p1 :: _ =>
        match pyInt p1 with
        | some n => resolveInterface interfaceStr h1 n
        | none => .error (.programmingError "dsn must be interface://hostname-or-ip[:port]")
      | [] => .error (.programmingError "dsn must be interface://hostname-or-ip[:port]")
    | _ => .error (.programmingError "dsn must be interface://hostname-or-ip[:port]")
  else if pyTruthy host && pyTruthy interface then
    resolveInterface (interface.getD "") (host.getD "") port
  else
    .error (.programmingError "dsn or host and interface is required")

/-- Connection construction with the port argument left at its default
value DEFAULT_PORT_NUMBER, as the Python signature defaults it. -/
def connectionInitDefault (dsn user password host database interface : Option String) :
    Except PyError Connection :=
  connectionInit dsn user password host database interface DEFAULT_PORT_NUMBER

/-- Connection.close (connection.py:92-95). -/
def Connection.close (c : Connection) : Except PyError Connection :=
  if c.closed then
    .error (.programmingError "cannot close the connection as it is already closed")
  else
    .ok { c with closed := true }

/-- Connection.commit (connection.py:97-99): a guarded no-op. -/
def Connection.commit (c : Connection) : Except PyError Unit :=
  if c.closed then
    .error (.programmingError "cannot commit as the connection is closed")
  else
    .ok ()

/-- Positional parameters besides self that each cursor __init__ of
cursors.py accepts: ArrowCursor (line 161), HTTPCursor (line 222) and
SocketCursor (line 235) each declare exactly (self, connection). -/
def cursorInitParamCount : Interface → Nat
  | Interface.ARROW => 1
  | Interface.SOCKET => 1
  | Interface.HTTP => 1

/-- Positional arguments besides the implicit new instance that
Connection.cursor passes at connection.py:104:
`self.__cursor(self, self.__host, self.__port)`. -/
def cursorCallArgCount : Nat := 3

/-- Body each cursor __init__ would run if the call bound. HTTPCursor only
chains to Cursor.__init__; ArrowCursor and SocketCursor additionally read
self._connection._host (cursors.py:163 and 237), an attribute the
Connection of this source never sets (it stores the host name-mangled), so
those constructors raise AttributeError. -/
def cursorInitBody : Interface → Except PyError Cursor
  | Interface.HTTP => .ok initialCursor
  | Interface.ARROW => .error (.attributeError "_host")
  | Interface.SOCKET => .error (.attributeError "_host")

/-- Connection.cursor (connection.py:101-104): after the closed check the
selected cursor class is called with three positional arguments; Python
binds a call to the __init__ parameter list before running its body and
raises TypeError on a count mismatch. -/
def Connection.cursor (c : Connection) : Except PyError Cursor :=
  if c.closed then
    .error (.programmingError "cannot create a cursor as the connection is closed")
  else if cursorCallArgCount = cursorInitParamCount c.interface then
    cursorInitBody c.interface
  else
    .error (.typeError "__init__ takes 2 positional arguments but 4 were given")

/-! ## Concrete documents and helper lemmas -/

/-- First row of the three-row data-point document of claim C1. -/
def rowC1 : JValue :=
  .obj [("TID", .num 1), ("TIMESTAMP", .str "1990-05-01 12:00:00.0"),
        ("VALUE", .num 0.37)]

/-- The C1 response document: a result list of three row objects sharing the
keys TID, TIMESTAMP, VALUE, the first with the fixed values and the other
two with arbitrary values. -/
def docC1 (a b c d e f : JValue) : JValue :=
  .obj [("result", .arr [rowC1,
    .obj [("TID", a), ("TIMESTAMP", b), ("VALUE", c)],
    .obj [("TID", d), ("TIMESTAMP", e), ("VALUE", f)]])]

/-- Row tuple of the first C1 row. -/
def tupC1 : Row := [.num 1, .str "1990-05-01 12:00:00.0", .num 0.37]

/-- Description the C1 document must produce. -/
def descC1 : List ColumnDesc :=
  [mkCol "TID" TypeOf.NUMBER, mkCol "TIMESTAMP" TypeOf.NUMBER,
   mkCol "VALUE" TypeOf.NUMBER]

/-- Draining an exhausted iterator yields no rows for any requested count. -/
theorem takeRows_nil (n : Nat) : takeRows n [] = .ok ([], []) := by
  cases n <;> rfl

/-! ## Claim theorems -/

/-- C1: on every open HTTP or socket cursor, executing a query whose
response body is the JSON document with a result list of the three
TID/TIMESTAMP/VALUE row objects installs a description of exactly those
three columns in order, each typed NUMBER, a rowcount of 3, a row iterator
whose first fetchone() yields (1, "1990-05-01 12:00:00.0", 0.37), and whose
fetchall() yields all three tuples in server order. -/
theorem C1_text_result_rows (st : Cursor) (h : st.connection = true)
    (loads : String → Option JValue) (raw op : String) (p : Params)
    (a b c d e f : JValue) (hl : loads raw = some (docC1 a b c d e f)) :
    HTTPCursor.execute loads st op p raw =
      ({ st with
          description := some descC1,
          rowcount := 3,
          result_set := some [.ok tupC1, .ok [a, b, c], .ok [d, e, f]] }, none)
    ∧ SocketCursor.execute loads st op p raw =
      ({ st with
          description := some descC1,
          rowcount := 3,
          result_set := some [.ok tupC1, .ok [a, b, c], .ok [d, e, f]] }, none)
    ∧ (∀ st2 : Cursor, st2.connection = true →
        st2.result_set = some [.ok tupC1, .ok [a, b, c], .ok [d, e, f]] →
        fetchone st2 =
          .ok (some tupC1, { st2 with result_set := some [.ok [a, b, c], .ok [d, e, f]] })
        ∧ fetchall st2 =
          .ok ([tupC1, [a, b, c], [d, e, f]], { st2 with result_set := some [] })) := by
  refine ⟨?_, ?_, ?_⟩
  · simp [HTTPCursor.execute, h, hl, after_execute, docC1, rowC1, pyDictGet,
      normalizeResult, forceRow, typeOfValue, mkCol, descC1, tupC1]
  · simp [SocketCursor.execute, h, hl, after_execute, docC1, rowC1, pyDictGet,
      normalizeResult, forceRow, typeOfValue, mkCol, descC1, tupC1]
  · intro st2 h2 hrs
    refine ⟨?_, ?_⟩
    · simp [fetchone, h2, hrs]
    · simp [fetchall, h2, hrs, takeRows]

/-- Concrete json.loads oracle delivering the C1 document of the test
suite. -/
def loadsC1 : String → Option JValue :=
  fun _ => some (docC1 (.num 2) (.str "1990-05-01 12:00:00.0") (.num 0.55)
    (.num 3) (.str "1990-05-01 12:00:00.0") (.num 0.73))

/-- Witness for C1 at a fresh cursor and the concrete test document. -/
theorem C1_text_result_rows_witness :
    HTTPCursor.execute loadsC1 initialCursor "SELECT * FROM DataPoint"
      Params.noParams "resp" =
      ({ initialCursor with
          description := some descC1,
          rowcount := 3,
          result_set := some [.ok tupC1,
            .ok [.num 2, .str "1990-05-01 12:00:00.0", .num 0.55],
            .ok [.num 3, .str "1990-05-01 12:00:00.0", .num 0.73]] }, none) :=
  (C1_text_result_rows initialCursor rfl loadsC1 "resp" "SELECT * FROM DataPoint"
    Params.noParams (.num 2) (.str "1990-05-01 12:00:00.0") (.num 0.55)
    (.num 3) (.str "1990-05-01 12:00:00.0") (.num 0.73) rfl).1

/-- C2: on every open HTTP or socket cursor, a response that parses as JSON
with a result list holding exactly one empty row object is normalized to
zero rows: empty description, rowcount 0, fetchone() yields the no-value
sentinel and fetchmany()/fetchall() yield empty sequences. -/
theorem C2_text_empty_result (st : Cursor) (h : st.connection = true)
    (loads : String → Option JValue) (raw op : String) (p : Params)
    (fields : List (String × JValue)) (hl : loads raw = some (.obj fields))
    (hres : pyDictGet fields "result" = some (.arr [.obj []])) :
    HTTPCursor.execute loads st op p raw =
      ({ st with description := some [], rowcount := 0, result_set := some [] }, none)
    ∧ SocketCursor.execute loads st op p raw =
      ({ st with description := some [], rowcount := 0, result_set := some [] }, none)
    ∧ (∀ st2 : Cursor, st2.connection = true → st2.result_set = some [] →
        fetchone st2 = .ok (none, st2)
        ∧ fetchmany st2 none = .ok ([], { st2 with result_set := some [] })
        ∧ fetchall st2 = .ok ([], { st2 with result_set := some [] })) := by
  refine ⟨?_, ?_, ?_⟩
  · simp [HTTPCursor.execute, h, hl, after_execute, hres, normalizeResult, pyFalsy]
  · simp [SocketCursor.execute, h, hl, after_execute, hres, normalizeResult, pyFalsy]
  · intro st2 h2 hrs
    refine ⟨?_, ?_, ?_⟩
    · simp [fetchone, h2, hrs]
    · simp [fetchmany, h2, hrs, takeRows_nil]
    · simp [fetchall, h2, hrs, takeRows_nil]

/-- Position of the first occurrence of a character in a list that starts
with a clean prefix. -/
theorem pyFindAux_append (c : Char) (A B : List Char) (h : c ∉ A) :
    pyFindAux c (A ++ c :: B) = some A.length := by
  induction A with
  | nil => simp [pyFindAux]
  | cons a rest ih =>
    rw [List.mem_cons, not_or] at h
    have hac : ¬ a = c := fun hh => h.1 hh.symm
    simp [pyFindAux, hac, ih h.2]

/-- Resolution of a non-negative slice bound. -/
theorem pySliceIdx_nonneg (len : Nat) (i : Int) (h : 0 ≤ i) :
    pySliceIdx len i = min i.toNat len := by
  simp [pySliceIdx, not_lt.mpr h]

/-- Extraction of the server error text: on a response that decomposes as a
clean head, the first left bracket, a middle, the last right bracket and a
clean tail, extract_server_error returns the stripped middle. -/
theorem extract_server_error_eq (A M B : String)
    (hA : '[' ∉ A.data) (hB : ']' ∉ B.data) :
    extract_server_error (A ++ "[" ++ M ++ "]" ++ B) = pyStrip M := by
  have hdata : (A ++ "[" ++ M ++ "]" ++ B).data
      = A.data ++ '[' :: (M.data ++ ']' :: B.data) := by
    simp [String.data_append]
  have hfind : pyFind (A ++ "[" ++ M ++ "]" ++ B) '[' = (A.data.length : Int) := by
    unfold pyFind
    rw [hdata, pyFindAux_append '[' A.data _ hA]
  have hrev : (A ++ "[" ++ M ++ "]" ++ B).data.reverse
      = B.data.reverse ++ ']' :: (M.data.reverse ++ '[' :: A.data.reverse) := by
    rw [hdata]
    simp
  have hrfind : pyRFind (A ++ "[" ++ M ++ "]" ++ B) ']'
      = (A.data.length : Int) + 1 + (M.data.length : Int) := by
    unfold pyRFind
    rw [hrev, pyFindAux_append ']' B.data.reverse _ (by simpa using hB), hdata]
    simp
    omega
  have hlen : (A.data ++ '[' :: (M.data ++ ']' :: B.data)).length
      = A.data.length + 1 + M.data.length + 1 + B.data.length := by
    simp only [List.length_append, List.length_cons]
    omega
  simp only [extract_server_error, pySlice]
  rw [hfind, hrfind, hdata, hlen]
  rw [pySliceIdx_nonneg _ _ (by omega), pySliceIdx_nonneg _ _ (by omega)]
  have h1 : ((A.data.length : Int) + 1).toNat = A.data.length + 1 := by omega
  have h2 : ((A.data.length : Int) + 1 + (M.data.length : Int)).toNat
      = A.data.length + 1 + M.data.length := by omega
  rw [h1, h2, min_eq_left (by omega), min_eq_left (by omega)]
  have hsplit : A.data ++ '[' :: (M.data ++ ']' :: B.data)
      = ((A.data ++ ['[']) ++ M.data) ++ (']' :: B.data) := by simp
  rw [hsplit]
  have htake : (((A.data ++ ['[']) ++ M.data) ++ (']' :: B.data)).take
      (A.data.length + 1 + M.data.length) = (A.data ++ ['[']) ++ M.data := by
    have : ((A.data ++ ['[']) ++ M.data).length = A.data.length + 1 + M.data.length := by
      simp; omega
    rw [← this, List.take_left]
  rw [htake]
  have hdrop : ((A.data ++ ['[']) ++ M.data).drop (A.data.length + 1) = M.data := by
    have : (A.data ++ ['[']).length = A.data.length + 1 := by simp
    rw [← this, List.drop_left]
  rw [hdrop]

/-- C3: on every open HTTP or socket cursor, a response body that does not
parse as JSON makes execute() raise ProgrammingError (no other exception
kind), and the message carries the text of the raw response strictly
between its first left bracket and its last right bracket, stripped of
surrounding whitespace. -/
theorem C3_nonjson_error (st : Cursor) (h : st.connection = true)
    (loads : String → Option JValue) (raw op : String) (p : Params)
    (hl : loads raw = none) (A M B : String)
    (hdec : raw = A ++ "[" ++ M ++ "]" ++ B)
    (hA : '[' ∉ A.data) (hB : ']' ∉ B.data) :
    HTTPCursor.execute loads st op p raw =
      (st, some (.programmingError
        ("unable to execute query due to:\n" ++ pyStrip M)))
    ∧ SocketCursor.execute loads st op p raw =
      (st, some (.programmingError
        ("unable to execute query due to:\n" ++ pyStrip M))) := by
  have hx : extract_server_error raw = pyStrip M := by
    rw [hdec]; exact extract_server_error_eq A M B hA hB
  constructor
  · simp [HTTPCursor.execute, h, after_execute, hl, hx]
  · simp [SocketCursor.execute, h, after_execute, hl, hx]

/-- Oracle for a body that fails to parse as JSON. -/
def loadsNone : String → Option JValue := fun _ => none

/-- Raw response of the malformed-response test. -/
def rawC3 : String := "server failure: [Unknown Exception Occurred] end"

/-- Witness for C3 at the concrete malformed body: the message carries the
text between the brackets. -/
theorem C3_nonjson_error_witness :
    HTTPCursor.execute loadsNone initialCursor "SELECT * FROM DataPoint"
      Params.noParams rawC3 =
      (initialCursor, some (.programmingError
        ("unable to execute query due to:\n" ++ "Unknown Exception Occurred"))) := by
  have := (C3_nonjson_error initialCursor rfl loadsNone rawC3
    "SELECT * FROM DataPoint" Params.noParams rfl
    "server failure: " "Unknown Exception Occurred" " end"
    (by decide) (by decide) (by decide)).1
  simpa [pyStrip] using this

/-- Concrete json.loads oracle delivering the empty-convention document. -/
def loadsC2 : String → Option JValue :=
  fun _ => some (.obj [("time", .str "PT7.996S"),
    ("query", .str "SELECT MAX(value) FROM DataPoint"),
    ("result", .arr [.obj []])])

/-- Witness for C2 at a fresh cursor and the concrete test document. -/
theorem C2_text_empty_result_witness :
    HTTPCursor.execute loadsC2 initialCursor "SELECT MAX(value) FROM DataPoint"
      Params.noParams "resp" =
      ({ initialCursor with
          description := some [],
          rowcount := 0,
          result_set := some [] }, none) :=
  (C2_text_empty_result initialCursor rfl loadsC2 "resp"
    "SELECT MAX(value) FROM DataPoint" Params.noParams
    [("time", .str "PT7.996S"), ("query", .str "SELECT MAX(value) FROM DataPoint"),
     ("result", .arr [.obj []])] rfl rfl).1

/-- Oracle delivering a one-row result whose single column holds a textual
value. -/
def loadsC4 : String → Option JValue :=
  fun _ => some (.obj [("result", .arr [.obj [("A", .str "x")]])])

/-- C4 counterexample: for the response whose result list holds one row
object binding column A to the textual value x, the claim prescribes
STRING, but the source assigns NUMBER (the inference compares the value
with the type object str, which never holds for a decoded value). -/
theorem C4_counterexample_textual_value_typed_number :
    (HTTPCursor.execute loadsC4 initialCursor "SELECT * FROM DataPoint"
      Params.noParams "resp").1.description = some [mkCol "A" TypeOf.NUMBER]
    ∧ typeOfValueSpec (.str "x") = TypeOf.STRING
    ∧ mkCol "A" TypeOf.NUMBER ≠ mkCol "A" TypeOf.STRING := by
  refine ⟨?_, rfl, ?_⟩
  · simp [HTTPCursor.execute, initialCursor, loadsC4, after_execute, pyDictGet,
      normalizeResult, pyFalsy, forceRow, typeOfValue]
  · simp [mkCol]

/-- C4 as amended: for every open HTTP or socket cursor and every response
whose normalized JSON result is non-empty (with an object first row, the
only shape that reaches the description loop), the description lists the
first-row keys in order, and the logical type assigned to every column is
NUMBER regardless of the value, because the STRING branch of the inference
tests identity with the type object str. -/
theorem C4_description_always_number (st : Cursor) (h : st.connection = true)
    (loads : String → Option JValue) (raw op : String) (p : Params)
    (fields : List (String × JValue)) (rs : List JValue)
    (fs : List (String × JValue)) (rest : List JValue)
    (hl : loads raw = some (.obj fields))
    (hres : pyDictGet fields "result" = some (.arr rs))
    (hnorm : normalizeResult rs = .obj fs :: rest) :
    (HTTPCursor.execute loads st op p raw).1.description
      = some (fs.map fun nv => mkCol nv.1 TypeOf.NUMBER)
    ∧ (SocketCursor.execute loads st op p raw).1.description
      = some (fs.map fun nv => mkCol nv.1 TypeOf.NUMBER) := by
  constructor
  · simp [HTTPCursor.execute, h, after_execute, hl, hres, hnorm, typeOfValue]
  · simp [SocketCursor.execute, h, after_execute, hl, hres, hnorm, typeOfValue]

/-- Witness for the amended C4 at the concrete one-column document. -/
theorem C4_description_always_number_witness :
    (HTTPCursor.execute loadsC4 initialCursor "SELECT * FROM DataPoint"
      Params.noParams "resp").1.description = some [mkCol "A" TypeOf.NUMBER] :=
  (C4_description_always_number initialCursor rfl loadsC4 "resp"
    "SELECT * FROM DataPoint" Params.noParams
    [("result", .arr [.obj [("A", .str "x")]])]
    [.obj [("A", .str "x")]] [("A", .str "x")] [] rfl rfl rfl).1

/-- Query template of the C5 failing input. -/
def qC5 : String := "SELECT * FROM DataPoint WHERE tid = %(tid)s"

/-- C5: the parameter step never substitutes anything — the guards compare
the parameters argument with type objects and the formatting results are
discarded — so the text handed to the transport is the unmodified template,
not the substituted text the claim describes; at the concrete failing input
the substitution the specification prescribes yields a different query. -/
theorem C5_parameters_never_substituted :
    (∀ (op : String) (p : Params), before_execute op p = op)
    ∧ before_execute qC5 (Params.mapping [("tid", "37")]) = qC5
    ∧ percentSubstitute qC5 [("tid", "37")]
      = "SELECT * FROM DataPoint WHERE tid = 37"
    ∧ before_execute qC5 (Params.mapping [("tid", "37")])
      ≠ percentSubstitute qC5 [("tid", "37")] := by
  refine ⟨fun op p => rfl, rfl, by decide, by decide⟩

/-- C6: construction succeeds for all three interfaces and both descriptor
forms, but every Connection.cursor() call raises TypeError, because
connection.py:104 passes three positional arguments (connection, host,
port) to cursor classes whose __init__ accepts only (connection). The
repository test suite expects a cursor of the matching variant instead. -/
theorem C6_cursor_construction_type_error :
    connectionInit (some "arrow://localhost") none none none none none
      DEFAULT_PORT_NUMBER = .ok (Connection.mk "localhost" 9999 Interface.ARROW false)
    ∧ connectionInit (some "http://localhost") none none none none none
      DEFAULT_PORT_NUMBER = .ok (Connection.mk "localhost" 9999 Interface.HTTP false)
    ∧ connectionInit (some "socket://localhost") none none none none none
      DEFAULT_PORT_NUMBER = .ok (Connection.mk "localhost" 9999 Interface.SOCKET false)
    ∧ connectionInitDefault none none none (some "localhost") none (some "http")
      = .ok (Connection.mk "localhost" 9999 Interface.HTTP false)
    ∧ Connection.cursor (Connection.mk "localhost" 9999 Interface.ARROW false)
      = .error (.typeError "__init__ takes 2 positional arguments but 4 were given")
    ∧ Connection.cursor (Connection.mk "localhost" 9999 Interface.HTTP false)
      = .error (.typeError "__init__ takes 2 positional arguments but 4 were given")
    ∧ Connection.cursor (Connection.mk "localhost" 9999 Interface.SOCKET false)
      = .error (.typeError "__init__ takes 2 positional arguments but 4 were given") := by
  refine ⟨rfl, rfl, rfl, rfl, rfl, rfl, rfl⟩

/-- Concrete closed connection for the C7 witness. -/
def closedConn : Connection := Connection.mk "localhost" 9999 Interface.HTTP true

/-- Concrete closed cursor for the C7 witness. -/
def closedCursor : Cursor := Cursor.mk false none (-1) 1 none

/-- C7: lifecycles are one-way and closure is guarded rather than
idempotent. On a closed Connection a second close(), commit() and cursor()
each raise ProgrammingError; on a closed Cursor a second close(), both
property reads, every fetch, both size setters and execute() on each
variant raise ProgrammingError; and the only transition close() performs
on an open object is to the closed state. -/
theorem C7_closed_guards (c : Connection) (hc : c.closed = true)
    (st : Cursor) (hs : st.connection = false) :
    Connection.close c = .error (.programmingError
      "cannot close the connection as it is already closed")
    ∧ Connection.commit c = .error (.programmingError
      "cannot commit as the connection is closed")
    ∧ Connection.cursor c = .error (.programmingError
      "cannot create a cursor as the connection is closed")
    ∧ cursorClose st = .error (.programmingError
      "cannot close the cursor as it is already closed")
    ∧ getDescription st = .error (.programmingError
      "cannot return the description as the cursor is closed")
    ∧ getRowcount st = .error (.programmingError
      "cannot return the row count as the cursor is closed")
    ∧ fetchone st = .error (.programmingError
      "cannot fetch a row as the cursor is closed")
    ∧ (∀ n, fetchmany st n = .error (.programmingError
        "cannot fetch multiple rows as the cursor is closed"))
    ∧ fetchall st = .error (.programmingError
      "cannot fetch all rows as the cursor is closed")
    ∧ (∀ sz, setinputsizes st sz = .error (.programmingError
        "cannot set the input size as the cursor is closed"))
    ∧ (∀ a b, setoutputsizes st a b = .error (.programmingError
        "cannot set the output size as the cursor is closed"))
    ∧ (∀ loads op p raw, HTTPCursor.execute loads st op p raw
        = (st, some (.programmingError "cannot execute queries as the cursor is closed")))
    ∧ (∀ loads op p raw, SocketCursor.execute loads st op p raw
        = (st, some (.programmingError "cannot execute queries as the cursor is closed")))
    ∧ (∀ loads op p out, ArrowCursor.execute loads st op p out
        = (st, some (.programmingError "cannot execute queries as the cursor is closed")))
    ∧ (∀ c0 : Connection, c0.closed = false →
        Connection.close c0 = .ok { c0 with closed := true })
    ∧ (∀ s0 : Cursor, s0.connection = true →
        cursorClose s0 = .ok { s0 with connection := false }) := by
  refine ⟨by simp [Connection.close, hc], by simp [Connection.commit, hc],
    by simp [Connection.cursor, hc], by simp [cursorClose, hs],
    by simp [getDescription, hs], by simp [getRowcount, hs],
    by simp [fetchone, hs], fun n => by simp [fetchmany, hs],
    by simp [fetchall, hs], fun sz => by simp [setinputsizes, hs],
    fun a b => by simp [setoutputsizes, hs],
    fun loads op p raw => by simp [HTTPCursor.execute, hs],
    fun loads op p raw => by simp [SocketCursor.execute, hs],
    fun loads op p out => by simp [ArrowCursor.execute, hs],
    fun c0 h0 => by simp [Connection.close, h0],
    fun s0 h0 => by simp [cursorClose, h0]⟩

/-- Witness for C7 at a concrete closed connection and cursor. -/
theorem C7_closed_guards_witness :
    Connection.close closedConn = .error (.programmingError
      "cannot close the connection as it is already closed") :=
  (C7_closed_guards closedConn rfl closedCursor rfl).1

/-- Cursor state left by an earlier successful query, for the C8 input. -/
def stC8 : Cursor :=
  Cursor.mk true (some [mkCol "OLD" TypeOf.NUMBER]) 3 1 (some [.ok [JValue.num 5]])

/-- Oracle delivering a JSON body whose result list holds a non-object. -/
def loadsC8 : String → Option JValue :=
  fun _ => some (.obj [("result", .arr [.num 1])])

/-- C8 counterexample: the body parses as JSON with result [1]; the
description loop then raises AttributeError, but only after line 136 has
already replaced self._result_set, so the raising execute() leaves the row
sequence different from its value before the call. -/
theorem C8_counterexample_partial_mutation :
    (HTTPCursor.execute loadsC8 stC8 "q" Params.noParams "r").2
      = some (.attributeError "items")
    ∧ (HTTPCursor.execute loadsC8 stC8 "q" Params.noParams "r").1.result_set
      ≠ stC8.result_set := by
  constructor
  · rfl
  · simp [HTTPCursor.execute, stC8, loadsC8, after_execute, pyDictGet,
      normalizeResult, pyFalsy, forceRow]

/-- C8 as amended: an execute() that raises before the row sequence is
installed — a body that fails to parse as JSON, a parsed body without a
result key, a streaming transport that is unavailable or reports a server
fault, or a stream with an unmapped wire type — leaves description,
rowcount and the result sequence exactly as they were; but a body that
parses with a non-empty result whose first row is not an object raises only
after replacing the result sequence (the counterexample). -/
theorem C8_failure_preserves_state (st : Cursor) (h : st.connection = true) :
    (∀ loads raw op p, loads raw = none →
      HTTPCursor.execute loads st op p raw = (st, some (.programmingError
        ("unable to execute query due to:\n" ++ extract_server_error raw))))
    ∧ (∀ loads raw op p, loads raw = none →
      SocketCursor.execute loads st op p raw = (st, some (.programmingError
        ("unable to execute query due to:\n" ++ extract_server_error raw))))
    ∧ (∀ loads raw op p fields, loads raw = some (.obj fields) →
        pyDictGet fields "result" = none →
        HTTPCursor.execute loads st op p raw = (st, some (.keyError "result")))
    ∧ (∀ loads op p, ArrowCursor.execute loads st op p FlightOutcome.unavailable
        = (st, some (.attributeError "_host")))
    ∧ (∀ loads op p t, ∃ e,
        ArrowCursor.execute loads st op p (FlightOutcome.fault t) = (st, some e))
    ∧ (∀ loads op p schema batches e, buildArrowDescription schema = .error e →
        ArrowCursor.execute loads st op p (FlightOutcome.stream schema batches)
          = (st, some e)) := by
  refine ⟨?_, ?_, ?_, ?_, ?_, ?_⟩
  · intro loads raw op p hl
    simp [HTTPCursor.execute, h, after_execute, hl]
  · intro loads raw op p hl
    simp [SocketCursor.execute, h, after_execute, hl]
  · intro loads raw op p fields hl hres
    simp [HTTPCursor.execute, h, after_execute, hl, hres]
  · intro loads op p
    simp [ArrowCursor.execute, h]
  · intro loads op p t
    simp only [ArrowCursor.execute, h]
    cases hq : loads (pySlice t (pyFind t '{') (pyRFind t '}' + 1)) with
    | none => exact ⟨.jsonDecodeError, by simp [hq]⟩
    | some j =>
      cases j with
      | null => exact ⟨.typeError "error payload is not subscriptable", by simp [hq]⟩
      | bool b => exact ⟨.typeError "error payload is not subscriptable", by simp [hq]⟩
      | num q => exact ⟨.typeError "error payload is not subscriptable", by simp [hq]⟩
      | str s => exact ⟨.typeError "error payload is not subscriptable", by simp [hq]⟩
      | arr l => exact ⟨.typeError "error payload is not subscriptable", by simp [hq]⟩
      | obj fs =>
        cases hg : pyDictGet fs "grpc_message" with
        | none => exact ⟨.keyError "grpc_message", by simp [hq, hg]⟩
        | some v =>
          cases v with
          | str m => exact ⟨.programmingError
              ("unable to execute query due to: " ++ pyStrip m), by simp [hq, hg]⟩
          | null => exact ⟨.attributeError "strip", by simp [hq, hg]⟩
          | bool b => exact ⟨.attributeError "strip", by simp [hq, hg]⟩
          | num q => exact ⟨.attributeError "strip", by simp [hq, hg]⟩
          | arr l => exact ⟨.attributeError "strip", by simp [hq, hg]⟩
          | obj fs2 => exact ⟨.attributeError "strip", by simp [hq, hg]⟩
  · intro loads op p schema batches e he
    simp [ArrowCursor.execute, h, arrow_after_execute, he]

/-- Witness for the amended C8 at the concrete cursor with prior result
state and the concrete malformed body. -/
theorem C8_failure_preserves_state_witness :
    HTTPCursor.execute loadsNone stC8 "q" Params.noParams rawC3
      = (stC8, some (.programmingError
        ("unable to execute query due to:\n" ++ extract_server_error rawC3))) :=
  (C8_failure_preserves_state stC8 rfl).1 loadsNone rawC3 "q" Params.noParams rfl

/-! ## Splitting lemmas for the descriptor grammar -/

/-- Fuel irrelevance for the split worker: any fuel at least the length of
the list gives the same result. -/
theorem pySplitAux_fuel (s0 : Char) (srest : List Char) :
    ∀ (f1 : Nat) (l : List Char) (f2 : Nat), l.length ≤ f1 → l.length ≤ f2 →
    pySplitAux s0 srest f1 l = pySplitAux s0 srest f2 l := by
  intro f1
  induction f1 with
  | zero =>
    intro l f2 h1 _
    have : l = [] := List.length_eq_zero.mp (Nat.le_zero.mp h1)
    subst this
    cases f2 <;> rfl
  | succ g1 ih =>
    intro l f2 h1 h2
    cases l with
    | nil => cases f2 <;> rfl
    | cons c rest =>
      cases f2 with
      | zero => simp at h2
      | succ g2 =>
        simp only [pySplitAux]
        by_cases hp : (s0 :: srest).isPrefixOf (c :: rest)
        · rw [if_pos hp, if_pos hp]
          have hd : (rest.drop srest.length).length ≤ g1 := by
            have := List.length_drop srest.length rest
            simp at h1
            omega
          have hd2 : (rest.drop srest.length).length ≤ g2 := by
            have := List.length_drop srest.length rest
            simp at h2
            omega
          rw [ih (rest.drop srest.length) g2 hd hd2]
        · rw [if_neg hp, if_neg hp]
          rw [ih rest g2 (by simp at h1; omega) (by simp at h2; omega)]

/-- On a list with no occurrence of the separator, the split is a single
chunk. -/
theorem pySplitAux_no_occ (s0 : Char) (srest : List Char) :
    ∀ (fuel : Nat) (l : List Char), l.length ≤ fuel →
    (∀ X Y : List Char, l ≠ X ++ (s0 :: srest) ++ Y) →
    pySplitAux s0 srest fuel l = [l] := by
  intro fuel
  induction fuel with
  | zero =>
    intro l h1 _
    have : l = [] := List.length_eq_zero.mp (Nat.le_zero.mp h1)
    subst this
    rfl
  | succ g ih =>
    intro l h1 hno
    cases l with
    | nil => rfl
    | cons c rest =>
      have hp : ¬ (s0 :: srest).isPrefixOf (c :: rest) := by
        intro hpre
        obtain ⟨t, ht⟩ := (List.isPrefixOf_iff_prefix.mp hpre)
        exact hno [] t (by simp [← ht])
      simp only [pySplitAux]
      rw [if_neg hp]
      have hrec : pySplitAux s0 srest g rest = [rest] := by
        apply ih rest (by simp at h1; omega)
        intro X Y hXY
        exact hno (c :: X) Y (by simp [hXY])
      rw [hrec]

/-- Splitting a list that decomposes as a clean head, the separator and a
tail cuts exactly at that first separator. -/
theorem pySplitAux_append (s0 : Char) (srest : List Char) :
    ∀ (A B : List Char) (fuel : Nat),
    (A ++ (s0 :: srest) ++ B).length ≤ fuel → s0 ∉ A →
    pySplitAux s0 srest fuel (A ++ (s0 :: srest) ++ B)
      = A :: pySplitAux s0 srest B.length B := by
  intro A
  induction A with
  | nil =>
    intro B fuel hlen _
    simp only [List.nil_append] at hlen ⊢
    cases fuel with
    | zero => simp at hlen
    | succ g =>
      have hpre : (s0 :: srest).isPrefixOf (s0 :: (srest ++ B)) := by
        rw [List.isPrefixOf_iff_prefix]
        exact ⟨B, by simp⟩
      have hshape : (s0 :: srest) ++ B = s0 :: (srest ++ B) := by simp
      rw [hshape]
      simp only [pySplitAux]
      rw [if_pos hpre, List.drop_left]
      rw [pySplitAux_fuel s0 srest g B B.length (by simp at hlen; omega) le_rfl]
  | cons a A' ih =>
    intro B fuel hlen hA
    rw [List.mem_cons, not_or] at hA
    cases fuel with
    | zero => simp at hlen
    | succ g =>
      have hshape : (a :: A') ++ (s0 :: srest) ++ B
          = a :: (A' ++ (s0 :: srest) ++ B) := by simp
      rw [hshape]
      have hp : ¬ (s0 :: srest).isPrefixOf (a :: (A' ++ (s0 :: srest) ++ B)) := by
        intro hpre
        obtain ⟨t, ht⟩ := List.isPrefixOf_iff_prefix.mp hpre
        have := (List.cons.injEq _ _ _ _).mp (by simpa using ht)
        exact hA.1 this.1
      simp only [pySplitAux]
      rw [if_neg hp]
      rw [ih B g (by simp at hlen ⊢; omega) hA.2]

/-- A character absent from a list rules out every occurrence of a
separator starting with it. -/
theorem no_occ_of_not_mem (c : Char) (cs l : List Char) (h : c ∉ l) :
    ∀ X Y : List Char, l ≠ X ++ (c :: cs) ++ Y := by
  intro X Y hXY
  exact h (by rw [hXY]; simp)

/-- Decomposing a list around a character that appears exactly once: both
sides of the unique occurrence are determined. -/
theorem colon_decomp (c : Char) :
    ∀ (H P X Y : List Char), c ∉ H → c ∉ P →
    H ++ c :: P = X ++ c :: Y → X = H ∧ Y = P := by
  intro H
  induction H with
  | nil =>
    intro P X Y _ hP heq
    cases X with
    | nil => simp at heq; exact ⟨rfl, heq.symm⟩
    | cons x X' =>
      simp at heq
      obtain ⟨hcx, hrest⟩ := heq
      exact absurd (by rw [hrest]; simp : c ∈ P) hP
  | cons h H' ih =>
    intro P X Y hH hP heq
    rw [List.mem_cons, not_or] at hH
    cases X with
    | nil =>
      simp at heq
      exact absurd heq.1 (fun hh => hH.1 hh.symm)
    | cons x X' =>
      simp at heq
      obtain ⟨hx, hrest⟩ := heq
      obtain ⟨h1, h2⟩ := ih P X' Y hH.2 hP hrest
      exact ⟨by rw [hx, h1], h2⟩

/-- A host and port joined by a single colon contain no "://" occurrence
when neither side holds a colon and the port holds no slash. -/
theorem no_sep3_in_host_port (H P : List Char)
    (hH : ':' ∉ H) (hP : ':' ∉ P) (hP2 : '/' ∉ P) :
    ∀ X Y : List Char, H ++ ':' :: P ≠ X ++ [':', '/', '/'] ++ Y := by
  intro X Y hXY
  have hshape : X ++ [':', '/', '/'] ++ Y = X ++ ':' :: ('/' :: '/' :: Y) := by simp
  rw [hshape] at hXY
  obtain ⟨_, hY⟩ := colon_decomp ':' H P X ('/' :: '/' :: Y) hH hP hXY
  exact hP2 (by rw [← hY]; simp)

/-- String-level: splitting A ++ "://" ++ B on "://" when A holds no colon
and B holds no "://" occurrence. -/
theorem pySplit_sep3 (A B : String) (hA : ':' ∉ A.data)
    (hno : ∀ X Y : List Char, B.data ≠ X ++ [':', '/', '/'] ++ Y) :
    pySplit (A ++ "://" ++ B) "://" = [A, B] := by
  show (pySplitAux ':' ['/', '/'] (A ++ "://" ++ B).data.length
    (A ++ "://" ++ B).data).map (fun l => ⟨l⟩) = [A, B]
  have hdata : (A ++ "://" ++ B).data = A.data ++ (':' :: ['/', '/']) ++ B.data := by
    simp [String.data_append]
  rw [hdata, pySplitAux_append ':' ['/', '/'] A.data B.data _ le_rfl hA,
    pySplitAux_no_occ ':' ['/', '/'] B.data.length B.data le_rfl hno]
  rfl

/-- String-level: a string with no "://" occurrence splits into itself. -/
theorem pySplit_no_sep3 (s : String)
    (hno : ∀ X Y : List Char, s.data ≠ X ++ [':', '/', '/'] ++ Y) :
    pySplit s "://" = [s] := by
  show (pySplitAux ':' ['/', '/'] s.data.length s.data).map (fun l => ⟨l⟩) = [s]
  rw [pySplitAux_no_occ ':' ['/', '/'] s.data.length s.data le_rfl hno]
  rfl

/-- String-level: splitting A ++ ":" ++ B on ":" when neither side holds a
colon. -/
theorem pySplit_colon (A B : String) (hA : ':' ∉ A.data) (hB : ':' ∉ B.data) :
    pySplit (A ++ ":" ++ B) ":" = [A, B] := by
  show (pySplitAux ':' [] (A ++ ":" ++ B).data.length
    (A ++ ":" ++ B).data).map (fun l => ⟨l⟩) = [A, B]
  have hdata : (A ++ ":" ++ B).data = A.data ++ (':' :: []) ++ B.data := by
    simp [String.data_append]
  rw [hdata, pySplitAux_append ':' [] A.data B.data _ le_rfl hA,
    pySplitAux_no_occ ':' [] B.data.length B.data le_rfl
      (no_occ_of_not_mem ':' [] B.data hB)]
  rfl

/-- String-level: a string with no colon splits on ":" into itself. -/
theorem pySplit_no_colon (s : String) (hs : ':' ∉ s.data) :
    pySplit s ":" = [s] := by
  show (pySplitAux ':' [] s.data.length s.data).map (fun l => ⟨l⟩) = [s]
  rw [pySplitAux_no_occ ':' [] s.data.length s.data le_rfl
    (no_occ_of_not_mem ':' [] s.data hs)]
  rfl

/-- A descriptor that embeds the separator is never the empty string. -/
theorem append_sep3_ne_empty (A B : String) : A ++ "://" ++ B ≠ "" := by
  intro he
  have := congrArg String.data he
  simp [String.data_append] at this

/-- Discriminator for the kind of exception a construction attempt raises. -/
def raisesNotSupported : Except PyError Connection → Bool
  | .error (.notSupportedError _) => true
  | _ => false

/-- C9 counterexample: supplying the credential field user as the empty
string is a supplied credential, yet construction succeeds and raises no
NotSupportedError, because the source tests credentials for truthiness. -/
theorem C9_counterexample_empty_credential :
    connectionInit (some "http://localhost") (some "") none none none none
      DEFAULT_PORT_NUMBER = .ok (Connection.mk "localhost" 9999 Interface.HTTP false)
    ∧ raisesNotSupported (connectionInit (some "http://localhost") (some "") none
        none none none DEFAULT_PORT_NUMBER) = false := by
  exact ⟨rfl, rfl⟩

/-- C9 as amended: any truthy (non-empty) credential raises
NotSupportedError regardless of the other arguments; with no credential
supplied, every malformed descriptor — one without a "://" occurrence, one
whose port does not parse as an integer, or one naming an unknown interface
in either input mode — raises ProgrammingError and nothing else. -/
theorem C9_credentials_and_descriptor_errors :
    (∀ (dsn user password host database interface : Option String) (port : Int),
      (pyTruthy user || pyTruthy password || pyTruthy database) = true →
      connectionInit dsn user password host database interface port
        = .error (.notSupportedError "only dsn, host, interface, and port is supported"))
    ∧ (∀ (dsn : String) (port : Int), dsn ≠ "" →
        (∀ X Y : List Char, dsn.data ≠ X ++ [':', '/', '/'] ++ Y) →
        connectionInit (some dsn) none none none none none port
          = .error (.programmingError "dsn must be interface://hostname-or-ip[:port]"))
    ∧ (∀ (iface hstr pstr : String) (port : Int),
        ':' ∉ iface.data → ':' ∉ hstr.data → ':' ∉ pstr.data → '/' ∉ pstr.data →
        pyInt pstr = none →
        connectionInit (some (iface ++ "://" ++ hstr ++ ":" ++ pstr))
          none none none none none port
          = .error (.programmingError "dsn must be interface://hostname-or-ip[:port]"))
    ∧ (∀ (iface hstr : String) (port : Int),
        ':' ∉ iface.data → ':' ∉ hstr.data → interfaceOfString iface = none →
        connectionInit (some (iface ++ "://" ++ hstr)) none none none none none port
          = .error (.programmingError "interface must be Arrow, HTTP, or socket"))
    ∧ (∀ (hostStr ifaceStr : String) (port : Int), hostStr ≠ "" → ifaceStr ≠ "" →
        interfaceOfString ifaceStr = none →
        connectionInit none none none (some hostStr) none (some ifaceStr) port
          = .error (.programmingError "interface must be Arrow, HTTP, or socket")) := by
  refine ⟨?_, ?_, ?_, ?_, ?_⟩
  · intro dsn user password host database interface port h
    simp [connectionInit, h]
  · intro dsn port hne hno
    have hsplit := pySplit_no_sep3 dsn hno
    simp [connectionInit, pyTruthy, hne, hsplit]
  · intro iface hstr pstr port hi hh hp1 hp2 hport
    have hassoc : iface ++ "://" ++ hstr ++ ":" ++ pstr
        = iface ++ "://" ++ (hstr ++ ":" ++ pstr) := by
      simp [String.append_assoc]
    rw [hassoc]
    have hB : (hstr ++ ":" ++ pstr).data = hstr.data ++ ':' :: pstr.data := by
      simp [String.data_append]
    have hnoB : ∀ X Y : List Char,
        (hstr ++ ":" ++ pstr).data ≠ X ++ [':', '/', '/'] ++ Y := by
      rw [hB]
      exact no_sep3_in_host_port hstr.data pstr.data hh hp1 hp2
    have hs1 := pySplit_sep3 iface (hstr ++ ":" ++ pstr) hi hnoB
    have hs2 := pySplit_colon hstr pstr hh hp1
    simp [connectionInit, pyTruthy, hs1, hs2, hport, append_sep3_ne_empty]
  · intro iface hstr port hi hh hunk
    have hnoB : ∀ X Y : List Char, hstr.data ≠ X ++ [':', '/', '/'] ++ Y :=
      no_occ_of_not_mem ':' ['/', '/'] hstr.data hh
    have hs1 := pySplit_sep3 iface hstr hi hnoB
    have hs2 := pySplit_no_colon hstr hh
    simp [connectionInit, pyTruthy, hs1, hs2, resolveInterface, hunk,
      append_sep3_ne_empty]
  · intro hostStr ifaceStr port hhost hiface hunk
    simp [connectionInit, pyTruthy, hhost, hiface, resolveInterface, hunk]

/-- Witness for the amended C9: a truthy credential raises
NotSupportedError, and the concrete unparseable-port descriptor raises the
grammar ProgrammingError. -/
theorem C9_credentials_and_descriptor_errors_witness :
    connectionInit none (some "username") none none none none DEFAULT_PORT_NUMBER
      = .error (.notSupportedError "only dsn, host, interface, and port is supported")
    ∧ connectionInit (some ("http" ++ "://" ++ "localhost" ++ ":" ++ "x"))
        none none none none none DEFAULT_PORT_NUMBER
      = .error (.programmingError "dsn must be interface://hostname-or-ip[:port]") :=
  ⟨C9_credentials_and_descriptor_errors.1 none (some "username") none none none none
      DEFAULT_PORT_NUMBER rfl,
    C9_credentials_and_descriptor_errors.2.2.1 "http" "localhost" "x"
      DEFAULT_PORT_NUMBER (by decide) (by decide) (by decide) (by decide) rfl⟩

/-- C10: a well-formed descriptor with the port omitted yields a connection
whose port is the fixed default 9999, and likewise the explicit input mode
with the port argument left at its default. -/
theorem C10_default_port (iface hstr : String) (k : Interface)
    (hi : ':' ∉ iface.data) (hh : ':' ∉ hstr.data)
    (hk : interfaceOfString iface = some k) :
    connectionInit (some (iface ++ "://" ++ hstr)) none none none none none
      DEFAULT_PORT_NUMBER = .ok (Connection.mk hstr DEFAULT_PORT_NUMBER k false)
    ∧ (∀ (hostStr ifaceStr : String) (k2 : Interface), hostStr ≠ "" → ifaceStr ≠ "" →
        interfaceOfString ifaceStr = some k2 →
        connectionInitDefault none none none (some hostStr) none (some ifaceStr)
          = .ok (Connection.mk hostStr DEFAULT_PORT_NUMBER k2 false)) := by
  constructor
  · have hnoB : ∀ X Y : List Char, hstr.data ≠ X ++ [':', '/', '/'] ++ Y :=
      no_occ_of_not_mem ':' ['/', '/'] hstr.data hh
    have hs1 := pySplit_sep3 iface hstr hi hnoB
    have hs2 := pySplit_no_colon hstr hh
    simp [connectionInit, pyTruthy, hs1, hs2, resolveInterface, hk,
      append_sep3_ne_empty]
  · intro hostStr ifaceStr k2 hhost hiface hk2
    simp [connectionInitDefault, connectionInit, pyTruthy, hhost, hiface,
      resolveInterface, hk2]

/-- Witness for C10 at the concrete descriptor http://localhost. -/
theorem C10_default_port_witness :
    connectionInit (some ("http" ++ "://" ++ "localhost")) none none none none none
      DEFAULT_PORT_NUMBER
      = .ok (Connection.mk "localhost" DEFAULT_PORT_NUMBER Interface.HTTP false) :=
  (C10_default_port "http" "localhost" Interface.HTTP (by decide) (by decide) rfl).1

end PyModelarDB
